import Mathlib

/-!
Verification of the authentication/authorization core of the ai-hub backend
(`backend/src/services/jwtService.ts`, `backend/src/utils/jwt.ts`,
`backend/src/middlewares/authMiddleware.ts`, the `authorize` role middleware,
and `backend/src/services/authService.ts`).

The repository signs and verifies credentials through the external
`jsonwebtoken` library, which is not part of the repository.  Following the
specification ("the signature is computed over the exact encoded payload using
a server-held secret", "parses and checks signature integrity first, then
checks expiry strictly greater than current time", failure taxonomy
Malformed / InvalidSignature / Expired), the library is modelled here as a
concrete, executable sign/verify pair over an unambiguous length-prefixed
serialization of the payload, with a keyed hash standing in for the HMAC.
Every function of the repository itself (token generation/verification,
secret loading, the middlewares, the role gate, login) is translated
directly from its TypeScript source.
-/

set_option maxRecDepth 16384

/-! ## Wire encoding (Modelled from the spec: the external jsonwebtoken
library serializes the payload unambiguously and appends a signature). -/

/-- Binary digits of a natural number, least significant first, over the
two-character alphabet used by the token serialization.  Structural recursion
on a fuel argument (adequate whenever the value is at most the fuel) keeps
the function kernel-reducible. -/
def digitsOfFuel : Nat → Nat → List Char
  | _, 0 => []
  | 0, _+1 => []
  | fuel+1, n+1 => (if (n+1) % 2 = 1 then 'b' else 'a') :: digitsOfFuel fuel ((n+1) / 2)

/-- Binary digits of a natural number, least significant first. -/
def digitsOf (n : Nat) : List Char := digitsOfFuel n n

/-- Self-delimiting encoding of a natural number: its binary digits followed
by the terminator character. -/
def encNat (n : Nat) : List Char := digitsOf n ++ ['c']

/-- Reads one encoded natural number from the front of the stream, returning
the value and the unread remainder. -/
def readDigits : List Char → Option (Nat × List Char)
  | [] => none
  | ch :: rest =>
    if ch = 'c' then some (0, rest)
    else if ch = 'a' then
      match readDigits rest with
      | some (n, r) => some (2 * n, r)
      | none => none
    else if ch = 'b' then
      match readDigits rest with
      | some (n, r) => some (2 * n + 1, r)
      | none => none
    else none

/-- Reads exactly `n` raw characters from the stream. -/
def readChars : Nat → List Char → Option (List Char × List Char)
  | 0, l => some ([], l)
  | _+1, [] => none
  | n+1, ch :: rest =>
    match readChars n rest with
    | some (cs, r) => some (ch :: cs, r)
    | none => none

/-- Length-prefixed encoding of a string: character count, then the raw
characters. -/
def encStr (s : String) : List Char := encNat s.data.length ++ s.data

/-- Reads one length-prefixed string from the front of the stream. -/
def readStr (l : List Char) : Option (String × List Char) :=
  match readDigits l with
  | none => none
  | some (n, r) =>
    match readChars n r with
    | some (cs, r2) => some (String.mk cs, r2)
    | none => none

/-! ## The modelled jsonwebtoken library. -/

/-- Decoded credential payload as it appears on the wire: subject identifier,
email, role, issued-at and expiry timestamps (seconds).  In
`jwtService.ts` the subject identifier field is named `userId`; in
`utils/jwt.ts` it is named `id`; both occupy the same payload position,
modelled here as `sub`. -/
structure JwtClaims where
  sub : String
  email : String
  role : String
  iat : Nat
  exp : Nat
deriving DecidableEq, Repr

/-- Serialization of the payload: the three strings then the two
timestamps. -/
def encClaims (c : JwtClaims) : List Char :=
  encStr c.sub ++ encStr c.email ++ encStr c.role ++ encNat c.iat ++ encNat c.exp

/-- Parses a serialized payload from the front of the stream. -/
def parseClaims (l : List Char) : Option (JwtClaims × List Char) :=
  match readStr l with
  | none => none
  | some (sub, r1) =>
    match readStr r1 with
    | none => none
    | some (email, r2) =>
      match readStr r2 with
      | none => none
      | some (role, r3) =>
        match readDigits r3 with
        | none => none
        | some (iat, r4) =>
          match readDigits r4 with
          | none => none
          | some (expiry, r5) => some (⟨sub, email, role, iat, expiry⟩, r5)

/-- Modelled from the spec: the keyed message-authentication code of the
external jsonwebtoken library ("the signature is computed over the exact
encoded payload using a server-held secret").  A concrete executable keyed
hash stands in for the HMAC. -/
def macHash (secret : String) (msg : List Char) : Nat :=
  (secret.data ++ msg).foldl (fun h ch => h * 131 + ch.toNat + 1) 7

/-- Verification outcome taxonomy of the modelled jwt library, following the
specification's error taxonomy. -/
inductive JwtVerifyError where
  | malformed
  | invalidSignature
  | expired
deriving DecidableEq, Repr

/-- Modelled from the spec: `jwt.sign(payload, secret, { expiresIn })` of the
external jsonwebtoken library.  Builds the payload with `iat := now` and the
expiry resolved at issuance time (`exp := now + ttl`), serializes it, and
appends the signature over the exact encoded payload. -/
def jwtSign (sub email role : String) (secret : String) (now ttl : Nat) : String :=
  let msg := encClaims ⟨sub, email, role, now, now + ttl⟩
  String.mk (msg ++ encNat (macHash secret msg))

/-- Modelled from the spec: `jwt.verify(token, secret)` of the external
jsonwebtoken library.  Parses the untrusted string (failure: `malformed`),
checks signature integrity first (failure: `invalidSignature`), then checks
that the expiry is strictly greater than the current time (failure:
`expired`); on success returns the embedded claims unchanged. -/
def jwtVerify (token : String) (secret : String) (now : Nat) :
    Except JwtVerifyError JwtClaims :=
  match parseClaims token.data with
  | none => .error .malformed
  | some (claims, r) =>
    match readDigits r with
    | none => .error .malformed
    | some (sig, r2) =>
      if r2 = [] then
        if sig = macHash secret (encClaims claims) then
          if now < claims.exp then .ok claims else .error .expired
        else .error .invalidSignature
      else .error .malformed

/-! ## Configuration environment (process.env). -/

/-- The process environment: a partial map from variable names to values. -/
def Env : Type := String → Option String

/-- From `backend/src/services/jwtService.ts` (`getRequiredEnvVar`): returns
the value of a required environment variable and throws when it is unset.
JavaScript's `if (!value)` also rejects a present-but-empty value, which is
falsy. -/
def getRequiredEnvVar (env : Env) (name : String) : Except String String :=
  match env name with
  | some v => if v = "" then .error (name ++ " is not defined in environment variables")
              else .ok v
  | none => .error (name ++ " is not defined in environment variables")

/-! ## The jwtService module (backend/src/services/jwtService.ts).
Its `JWT_SECRET` and `JWT_EXPIRES_IN` are loaded once at module
initialization through `getRequiredEnvVar`; the service functions below take
the loaded secret and the TTL resolved to seconds as parameters. -/

/-- From `backend/src/types/UserTypes.ts` (`UserAttributes`). -/
structure UserAttributes where
  id : String
  email : String
  password : String
  name : String
  role : String
deriving DecidableEq, Repr

namespace JwtService

/-- From `jwtService.ts` (`JwtPayload`): the payload fields placed into the
token by `generateToken`. -/
structure JwtPayload where
  userId : String
  email : String
  role : String
deriving DecidableEq, Repr

/-- From `jwtService.ts` (`JwtService.generateToken`): builds the payload
`{ userId: user.id, email: user.email, role: user.role }` and signs it with
the loaded secret and configured TTL. -/
def generateToken (secret : String) (ttl : Nat) (now : Nat) (user : UserAttributes) : String :=
  let payload : JwtPayload := ⟨user.id, user.email, user.role⟩
  jwtSign payload.userId payload.email payload.role secret now ttl

/-- From `jwtService.ts` (`JwtService.verifyToken`): calls `jwt.verify` and
maps every failure to the single thrown error
`Invalid or expired token`. -/
def verifyToken (secret : String) (now : Nat) (token : String) :
    Except String JwtClaims :=
  match jwtVerify token secret now with
  | .ok decoded => .ok decoded
  | .error _ => .error "Invalid or expired token"

end JwtService

/-! ## The utils/jwt module (the `signToken`/`verifyToken` variant). -/

namespace UtilsJwt

/-- From `utils/jwt.ts` (`JwtPayload`): the payload fields of the variant
module, whose subject identifier field is named `id`. -/
structure JwtPayload where
  id : String
  email : String
  role : String
deriving DecidableEq, Repr

/-- From `utils/jwt.ts`: `JWT_SECRET = process.env.JWT_SECRET ||
'fallback-secret-key'`.  JavaScript's `||` takes the fallback when the
variable is unset or empty (falsy). -/
def jwtSecret (env : Env) : String :=
  match env "JWT_SECRET" with
  | some v => if v = "" then "fallback-secret-key" else v
  | none => "fallback-secret-key"

/-- From `utils/jwt.ts` (`signToken`): signs the payload with the module's
secret. -/
def signToken (env : Env) (ttl : Nat) (now : Nat) (payload : JwtPayload) : String :=
  jwtSign payload.id payload.email payload.role (jwtSecret env) now ttl

/-- From `utils/jwt.ts` (`verifyToken`): calls `jwt.verify` and returns
`null` on any failure. -/
def verifyToken (env : Env) (now : Nat) (token : String) : Option JwtClaims :=
  match jwtVerify token (jwtSecret env) now with
  | .ok decoded => some decoded
  | .error _ => none

end UtilsJwt

/-! ## Middlewares. -/

/-- JSON error body `{ success, error }` sent by the middlewares. -/
structure ErrorBody where
  success : Bool
  error : String
deriving DecidableEq, Repr

/-- Observable outcome of running one middleware on a request: the HTTP
status and body of the response it sent (if any), the identity claim left on
`req.user`, and how many times it invoked `next()`. -/
structure MwOutcome where
  status : Option Nat
  body : Option ErrorBody
  user : Option JwtClaims
  nextCalls : Nat
deriving DecidableEq, Repr

/-- Token extraction shared by the middlewares:
`authHeader && authHeader.startsWith('Bearer ') ? authHeader.substring(7) :
null`.  `startsWith` is modelled on the character list and `substring(7)`
drops the seven characters of the `Bearer ` prefix. -/
def extractBearer (authHeader : Option String) : Option String :=
  match authHeader with
  | none => none
  | some h => if "Bearer ".data.isPrefixOf h.data
              then some (String.mk (h.data.drop 7)) else none

/-- From `backend/src/middlewares/authMiddleware.ts` (`authenticateToken`):
401 `Access token is required` when no Bearer token is present — the source
guard is `if (!token)`, and in JavaScript an extracted *empty* token string
is falsy, so a header of exactly `Bearer ` is also rejected 401 before any
verification — 403 `Invalid or expired token` when `jwtService.verifyToken`
throws, otherwise attaches the decoded claims to `req.user` and calls
`next()`.  The outer catch-all (500) is unreachable in this total model. -/
def authenticateToken (secret : String) (now : Nat) (authHeader : Option String) : MwOutcome :=
  match extractBearer authHeader with
  | none => ⟨some 401, some ⟨false, "Access token is required"⟩, none, 0⟩
  | some token =>
    if token = "" then ⟨some 401, some ⟨false, "Access token is required"⟩, none, 0⟩
    else
      match JwtService.verifyToken secret now token with
      | .ok decoded => ⟨none, none, some decoded, 1⟩
      | .error _ => ⟨some 403, some ⟨false, "Invalid or expired token"⟩, none, 0⟩

/-- From the `authMiddleware` variant (the middleware built on
`utils/jwt.verifyToken`): 401 `Authentication required` when no Bearer token
is present, 401 `Invalid or expired token` when verification returns null,
otherwise attaches the decoded claims and calls `next()`. -/
def authMiddleware (env : Env) (now : Nat) (authHeader : Option String) : MwOutcome :=
  match extractBearer authHeader with
  | none => ⟨some 401, some ⟨false, "Authentication required"⟩, none, 0⟩
  | some token =>
    match UtilsJwt.verifyToken env now token with
    | some decoded => ⟨none, none, some decoded, 1⟩
    | none => ⟨some 401, some ⟨false, "Invalid or expired token"⟩, none, 0⟩

/-- From `backend/src/middlewares/authMiddleware.ts` (`optionalAuth`):
attaches the decoded claims when a Bearer token is present and valid,
swallows verification failures, and always calls `next()`. -/
def optionalAuth (secret : String) (now : Nat) (authHeader : Option String) : MwOutcome :=
  match extractBearer authHeader with
  | none => ⟨none, none, none, 1⟩
  | some token =>
    match JwtService.verifyToken secret now token with
    | .ok decoded => ⟨none, none, some decoded, 1⟩
    | .error _ => ⟨none, none, none, 1⟩

/-- ASCII-faithful model of JavaScript's `toLowerCase()`. -/
def jsToLower (s : String) : String := String.mk (s.data.map Char.toLower)

/-- From the `authorize` role middleware: 401 `Authentication required` when
no identity claim is attached; otherwise compares the lower-cased claim role
against the lower-cased allow-list entries
(`allowedRoles.some(role => role.toLowerCase() === userRole)`), responding
403 `Insufficient permissions` on a miss and calling `next()` on a hit. -/
def authorize (allowedRoles : List String) (user : Option JwtClaims) : MwOutcome :=
  match user with
  | none => ⟨some 401, some ⟨false, "Authentication required"⟩, none, 0⟩
  | some u =>
    let userRole := jsToLower u.role
    let hasRole := allowedRoles.any (fun role => jsToLower role == userRole)
    if hasRole then ⟨none, none, some u, 1⟩
    else ⟨some 403, some ⟨false, "Insufficient permissions"⟩, some u, 0⟩

/-! ## The authService module (backend/src/services/authService.ts). -/

/-- From `authService.ts` (`LoginCredentials`). -/
structure LoginCredentials where
  email : String
  password : String
deriving DecidableEq, Repr

/-- The `user` object of `authService.ts`'s `AuthResponse`. -/
structure AuthUser where
  id : String
  email : String
  name : String
  role : String
deriving DecidableEq, Repr

/-- From `authService.ts` (`AuthResponse`). -/
structure AuthResponse where
  user : AuthUser
deriving DecidableEq, Repr

/-- The `AuthResponse` of the `AuthService` variant defined in
`useCaseService.ts`, which additionally returns a token. -/
structure AuthResponseWithToken where
  user : AuthUser
  token : String
deriving DecidableEq, Repr

namespace AuthService

/-- From `authService.ts` (`AuthService.login`): looks the user up by email
and accepts the password when it is string-equal to the stored password
field or when `bcrypt.compare` succeeds against it
(`password === user.password || await bcrypt.compare(password,
user.password)`).  The repository lookup and the external bcrypt comparison
are passed in as functions. -/
def login (findByEmail : String → Option UserAttributes)
    (bcryptCompare : String → String → Bool)
    (credentials : LoginCredentials) : Option AuthResponse :=
  match findByEmail credentials.email with
  | none => none
  | some user =>
    let isPasswordValid :=
      credentials.password == user.password
        || bcryptCompare credentials.password user.password
    if isPasswordValid then some ⟨⟨user.id, user.email, user.name, user.role⟩⟩
    else none

/-- From the `AuthService.login` variant in `useCaseService.ts`: identical
password acceptance, additionally issuing a token via
`jwtService.generateToken`. -/
def loginWithToken (findByEmail : String → Option UserAttributes)
    (bcryptCompare : String → String → Bool)
    (secret : String) (ttl : Nat) (now : Nat)
    (credentials : LoginCredentials) : Option AuthResponseWithToken :=
  match findByEmail credentials.email with
  | none => none
  | some user =>
    let isPasswordValid :=
      credentials.password == user.password
        || bcryptCompare credentials.password user.password
    if isPasswordValid then
      some ⟨⟨user.id, user.email, user.name, user.role⟩,
        JwtService.generateToken secret ttl now user⟩
    else none

end AuthService

/-! ## Round-trip facts about the wire encoding. -/

theorem readDigits_cons_c (l : List Char) : readDigits ('c' :: l) = some (0, l) := rfl

theorem readDigits_cons_a (l : List Char) : readDigits ('a' :: l) =
    (match readDigits l with
     | some (n, r) => some (2 * n, r)
     | none => none) := rfl

theorem readDigits_cons_b (l : List Char) : readDigits ('b' :: l) =
    (match readDigits l with
     | some (n, r) => some (2 * n + 1, r)
     | none => none) := rfl

theorem readDigits_digitsOfFuel (fuel : Nat) : ∀ n : Nat, n ≤ fuel →
    ∀ rest : List Char,
    readDigits (digitsOfFuel fuel n ++ 'c' :: rest) = some (n, rest) := by
  induction fuel with
  | zero =>
    intro n hn rest
    have h0 : n = 0 := by omega
    subst h0
    rw [digitsOfFuel, List.nil_append, readDigits_cons_c]
  | succ fuel ih =>
    intro n hn rest
    match n with
    | 0 => rw [digitsOfFuel, List.nil_append, readDigits_cons_c]
    | m+1 =>
      have ihalf := ih ((m+1)/2) (by omega) rest
      rw [digitsOfFuel, List.cons_append]
      rcases Nat.mod_two_eq_zero_or_one (m+1) with h | h
      · rw [if_neg (by omega : ¬ ((m+1) % 2 = 1)), readDigits_cons_a, ihalf]
        have h2 : 2 * ((m+1)/2) = m+1 := by omega
        show some (2 * ((m+1)/2), rest) = some (m+1, rest)
        rw [h2]
      · rw [if_pos h, readDigits_cons_b, ihalf]
        have h2 : 2 * ((m+1)/2) + 1 = m+1 := by omega
        show some (2 * ((m+1)/2) + 1, rest) = some (m+1, rest)
        rw [h2]

theorem readDigits_encNat (n : Nat) (rest : List Char) :
    readDigits (encNat n ++ rest) = some (n, rest) := by
  rw [encNat, digitsOf, List.append_assoc, List.singleton_append]
  exact readDigits_digitsOfFuel n n (Nat.le_refl n) rest

theorem readDigits_encNat_nil (n : Nat) :
    readDigits (encNat n) = some (n, []) := by
  have h := readDigits_encNat n []
  rwa [List.append_nil] at h

theorem readChars_append (cs : List Char) : ∀ rest : List Char,
    readChars cs.length (cs ++ rest) = some (cs, rest) := by
  induction cs with
  | nil => intro rest; simp [readChars]
  | cons ch tl ih => intro rest; simp [readChars, ih rest]

theorem readStr_encStr (s : String) (rest : List Char) :
    readStr (encStr s ++ rest) = some (s, rest) := by
  rw [encStr, List.append_assoc]
  simp only [readStr, readDigits_encNat, readChars_append]

/-! ## Behavior of the modelled jwt library. -/

theorem parseClaims_encClaims (c : JwtClaims) (rest : List Char) :
    parseClaims (encClaims c ++ rest) = some (c, rest) := by
  obtain ⟨sub, email, role, iat, expiry⟩ := c
  rw [encClaims]
  simp only [List.append_assoc]
  simp only [parseClaims, readStr_encStr, readDigits_encNat]

/-- Complete characterization of verifying a token produced by the modelled
sign function under the same secret: the embedded claims come back unchanged
when the expiry is still in the future, and the distinct `expired` outcome
results otherwise. -/
theorem jwtVerify_jwtSign (sub email role secret : String) (now ttl tv : Nat) :
    jwtVerify (jwtSign sub email role secret now ttl) secret tv =
      (if tv < now + ttl then .ok ⟨sub, email, role, now, now + ttl⟩
       else .error .expired) := by
  rw [jwtSign, jwtVerify]
  show (match parseClaims (encClaims ⟨sub, email, role, now, now + ttl⟩ ++
      encNat (macHash secret (encClaims ⟨sub, email, role, now, now + ttl⟩))) with
    | none => Except.error JwtVerifyError.malformed
    | some (claims, r) =>
      match readDigits r with
      | none => Except.error JwtVerifyError.malformed
      | some (sig, r2) =>
        if r2 = [] then
          if sig = macHash secret (encClaims claims) then
            if tv < claims.exp then Except.ok claims
            else Except.error JwtVerifyError.expired
          else Except.error JwtVerifyError.invalidSignature
        else Except.error JwtVerifyError.malformed) = _
  rw [parseClaims_encClaims]
  simp only [readDigits_encNat_nil]
  simp

/-! ## Shared helper lemmas. -/

/-- Unfolding of the role gate on an attached identity. -/
theorem authorize_some (allowed : List String) (u : JwtClaims) :
    authorize allowed (some u) =
      (if allowed.any (fun role => jsToLower role == jsToLower u.role)
       then ⟨none, none, some u, 1⟩
       else ⟨some 403, some ⟨false, "Insufficient permissions"⟩, some u, 0⟩) := rfl

/-- The role-gate membership test, expressed propositionally. -/
theorem authorize_any_iff (allowed : List String) (u : JwtClaims) :
    (allowed.any (fun role => jsToLower role == jsToLower u.role) = true)
      ↔ ∃ r ∈ allowed, jsToLower r = jsToLower u.role := by
  simp [List.any_eq_true]

/-! ## The claims. -/

/-- Claim C1 (confirmed): for every identity with non-empty id, email, and
role, verifying (at issuance time, with a positive configured TTL) the
credential produced by issuing for that identity succeeds and returns a
claim whose subject identifier, email, and role equal the identity's. -/
theorem claim_C1_issue_verify_roundtrip
    (secret : String) (ttl now : Nat) (u : UserAttributes)
    (hid : u.id ≠ "") (hemail : u.email ≠ "") (hrole : u.role ≠ "")
    (httl : 0 < ttl) :
    ∃ claim : JwtClaims,
      JwtService.verifyToken secret now (JwtService.generateToken secret ttl now u)
        = Except.ok claim
      ∧ claim.sub = u.id ∧ claim.email = u.email ∧ claim.role = u.role := by
  refine ⟨⟨u.id, u.email, u.role, now, now + ttl⟩, ?_, rfl, rfl, rfl⟩
  have h1 := jwtVerify_jwtSign u.id u.email u.role secret now ttl now
  rw [if_pos (by omega)] at h1
  show JwtService.verifyToken secret now (jwtSign u.id u.email u.role secret now ttl) = _
  simp [JwtService.verifyToken, h1]

/-- Witness for C1 at a concrete identity. -/
theorem claim_C1_witness :
    ("u1" : String) ≠ "" ∧ ("a@x.com" : String) ≠ "" ∧ ("admin" : String) ≠ ""
    ∧ 0 < 3600 ∧
    ∃ claim : JwtClaims,
      JwtService.verifyToken "test-secret-key" 1000
        (JwtService.generateToken "test-secret-key" 3600 1000
          ⟨"u1", "a@x.com", "pw", "Alice", "admin"⟩)
        = Except.ok claim
      ∧ claim.sub = "u1" ∧ claim.email = "a@x.com" ∧ claim.role = "admin" :=
  ⟨by decide, by decide, by decide, by decide,
    claim_C1_issue_verify_roundtrip "test-secret-key" 3600 1000
      ⟨"u1", "a@x.com", "pw", "Alice", "admin"⟩
      (by decide) (by decide) (by decide) (by decide)⟩

/-- Claim C2 (corrected), counterexample: with no `JWT_SECRET` configured, the
`utils/jwt` module resolves its secret to the hardcoded default
`fallback-secret-key`, signs a token under it, and verifies that token
successfully — so a token is signed and verified under a default secret,
contradicting the claim's universal guarantee. -/
theorem claim_C2_counterexample :
    UtilsJwt.jwtSecret (fun _ => none) = "fallback-secret-key" ∧
    UtilsJwt.verifyToken (fun _ => none) 100
      (UtilsJwt.signToken (fun _ => none) 3600 100 ⟨"u1", "a@x.com", "admin"⟩)
      = some ⟨"u1", "a@x.com", "admin", 100, 3700⟩ :=
  ⟨rfl, rfl⟩

/-- Claim C2 (corrected, amended): when the signing secret is absent (or
empty) in the configuration, the jwtService module's initialization fails
(`getRequiredEnvVar` throws), but the `utils/jwt` module instead falls back
to the default secret `fallback-secret-key`, under which it signs and
verifies tokens. -/
theorem claim_C2_missing_secret (env : Env)
    (h : env "JWT_SECRET" = none ∨ env "JWT_SECRET" = some "") :
    getRequiredEnvVar env "JWT_SECRET"
      = Except.error "JWT_SECRET is not defined in environment variables" ∧
    UtilsJwt.jwtSecret env = "fallback-secret-key" := by
  rcases h with h | h <;>
    exact ⟨by simp [getRequiredEnvVar, h], by simp [UtilsJwt.jwtSecret, h]⟩

/-- Witness for the amended C2 at the empty environment. -/
theorem claim_C2_witness :
    ((fun _ => none : Env) "JWT_SECRET" = none
      ∨ (fun _ => none : Env) "JWT_SECRET" = some "") ∧
    (getRequiredEnvVar (fun _ => none) "JWT_SECRET"
        = Except.error "JWT_SECRET is not defined in environment variables" ∧
      UtilsJwt.jwtSecret (fun _ => none) = "fallback-secret-key") :=
  ⟨Or.inl rfl, claim_C2_missing_secret (fun _ => none) (Or.inl rfl)⟩

/-- Claim C3 (corrected), counterexample: the `authenticateToken` access-gate
variant, on a request with no Authorization header, responds with body error
`Access token is required`, not the claimed exact body
`Authentication required`. -/
theorem claim_C3_counterexample :
    (authenticateToken "test-secret-key" 0 none).body
      = some ⟨false, "Access token is required"⟩ ∧
    (authenticateToken "test-secret-key" 0 none).body
      ≠ some ⟨false, "Authentication required"⟩ :=
  ⟨rfl, by decide⟩

/-- Claim C3 (corrected, amended): for every request whose Authorization
header is absent or lacks the `Bearer ` prefix, neither access-gate variant
invokes the downstream handler and both respond 401; the `authMiddleware`
variant responds with body exactly
`{"success": false, "error": "Authentication required"}` while the
`authenticateToken` variant responds with body exactly
`{"success": false, "error": "Access token is required"}`. -/
theorem claim_C3_missing_header (env : Env) (secret : String) (now : Nat)
    (header : Option String) (hnotok : extractBearer header = none) :
    authMiddleware env now header
      = ⟨some 401, some ⟨false, "Authentication required"⟩, none, 0⟩ ∧
    authenticateToken secret now header
      = ⟨some 401, some ⟨false, "Access token is required"⟩, none, 0⟩ := by
  exact ⟨by simp [authMiddleware, hnotok], by simp [authenticateToken, hnotok]⟩

/-- Witness for the amended C3 at an absent header. -/
theorem claim_C3_witness :
    extractBearer none = none ∧
    (authMiddleware (fun _ => none) 0 none
        = ⟨some 401, some ⟨false, "Authentication required"⟩, none, 0⟩ ∧
      authenticateToken "test-secret-key" 0 none
        = ⟨some 401, some ⟨false, "Access token is required"⟩, none, 0⟩) :=
  ⟨rfl, claim_C3_missing_header (fun _ => none) "test-secret-key" 0 none rfl⟩

/-- Claim C4 (corrected), counterexample: on a credential that is expired yet
validly signed (the modelled jwt library itself reports `expired`),
`JwtService.verifyToken` produces exactly the same generic outcome
`Invalid or expired token` as it does on unparseable garbage, so its failure
outcome is not a distinct `Expired`. -/
theorem claim_C4_counterexample :
    jwtVerify (jwtSign "u1" "a@x.com" "admin" "test-secret-key" 100 50)
        "test-secret-key" 200
      = Except.error JwtVerifyError.expired ∧
    JwtService.verifyToken "test-secret-key" 200
        (jwtSign "u1" "a@x.com" "admin" "test-secret-key" 100 50)
      = Except.error "Invalid or expired token" ∧
    JwtService.verifyToken "test-secret-key" 200 "garbage"
      = Except.error "Invalid or expired token" :=
  ⟨rfl, rfl, rfl⟩

/-- Claim C4 (corrected, amended): for every credential whose issuance time
plus TTL is not after the verification time, verification fails even though
the signature is valid — distinctly as `expired` inside the modelled jwt
library, but surfaced by `JwtService.verifyToken` only as the single generic
error `Invalid or expired token` shared by all verification failures. -/
theorem claim_C4_expired_generic (sub email role secret : String)
    (now ttl tv : Nat) (h : now + ttl ≤ tv) :
    jwtVerify (jwtSign sub email role secret now ttl) secret tv
      = Except.error JwtVerifyError.expired ∧
    JwtService.verifyToken secret tv (jwtSign sub email role secret now ttl)
      = Except.error "Invalid or expired token" := by
  have h1 := jwtVerify_jwtSign sub email role secret now ttl tv
  rw [if_neg (by omega)] at h1
  exact ⟨h1, by simp [JwtService.verifyToken, h1]⟩

/-- Witness for the amended C4 at a concrete expired credential. -/
theorem claim_C4_witness :
    100 + 50 ≤ 200 ∧
    (jwtVerify (jwtSign "u2" "b@x.com" "editor" "k1" 100 50) "k1" 200
        = Except.error JwtVerifyError.expired ∧
      JwtService.verifyToken "k1" 200 (jwtSign "u2" "b@x.com" "editor" "k1" 100 50)
        = Except.error "Invalid or expired token") :=
  ⟨by decide, claim_C4_expired_generic "u2" "b@x.com" "editor" "k1" 100 50 200 (by decide)⟩

/-- Claim C5 (corrected), counterexample: on the empty string — which does
not parse — `JwtService.verifyToken` produces exactly the same generic
outcome `Invalid or expired token` as it does on an expired, validly signed
credential, so its failure outcome is not a distinct `Malformed`. -/
theorem claim_C5_counterexample :
    parseClaims ("" : String).data = none ∧
    JwtService.verifyToken "k2" 300 "" = Except.error "Invalid or expired token" ∧
    JwtService.verifyToken "k2" 300 (jwtSign "u3" "c@x.com" "viewer" "k2" 100 50)
      = Except.error "Invalid or expired token" :=
  ⟨rfl, rfl, rfl⟩

/-- Claim C5 (corrected, amended): for every input string that cannot be
parsed into the expected credential structure, verification fails —
distinctly as `malformed` inside the modelled jwt library, but surfaced by
`JwtService.verifyToken` only as the generic error
`Invalid or expired token` — and the failure never escapes the access-gate
middleware as a crash: a non-empty unparseable Bearer token is caught and
answered 403 `Invalid or expired token` without invoking the downstream
handler, while an empty extracted token is treated as missing (the falsy
`if (!token)` guard) and rejected 401 `Access token is required` before
verification is even attempted. -/
theorem claim_C5_unparseable_generic (secret : String) (now : Nat)
    (t : String) (hparse : parseClaims t.data = none)
    (header : Option String) (hbear : extractBearer header = some t) :
    jwtVerify t secret now = Except.error JwtVerifyError.malformed ∧
    JwtService.verifyToken secret now t = Except.error "Invalid or expired token" ∧
    authenticateToken secret now header
      = (if t = ""
         then ⟨some 401, some ⟨false, "Access token is required"⟩, none, 0⟩
         else ⟨some 403, some ⟨false, "Invalid or expired token"⟩, none, 0⟩) := by
  have h1 : jwtVerify t secret now = Except.error JwtVerifyError.malformed := by
    rw [jwtVerify, hparse]
  have h2 : JwtService.verifyToken secret now t
      = Except.error "Invalid or expired token" := by
    simp [JwtService.verifyToken, h1]
  refine ⟨h1, h2, ?_⟩
  by_cases hT : t = ""
  · simp [authenticateToken, hbear, hT]
  · simp [authenticateToken, hbear, hT, h2]

/-- Witness for the amended C5: a non-empty unparseable Bearer token falls
into the 403 branch, and (checked directly) the bare `Bearer ` header,
whose extracted token is empty, falls into the 401 branch. -/
theorem claim_C5_witness :
    parseClaims ("garbage" : String).data = none ∧
    extractBearer (some "Bearer garbage") = some "garbage" ∧
    (jwtVerify "garbage" "k3" 0 = Except.error JwtVerifyError.malformed ∧
      JwtService.verifyToken "k3" 0 "garbage" = Except.error "Invalid or expired token" ∧
      authenticateToken "k3" 0 (some "Bearer garbage")
        = (if ("garbage" : String) = ""
           then ⟨some 401, some ⟨false, "Access token is required"⟩, none, 0⟩
           else ⟨some 403, some ⟨false, "Invalid or expired token"⟩, none, 0⟩)) ∧
    authenticateToken "k3" 0 (some "Bearer ")
      = ⟨some 401, some ⟨false, "Access token is required"⟩, none, 0⟩ :=
  ⟨rfl, by decide,
    claim_C5_unparseable_generic "k3" 0 "garbage" rfl (some "Bearer garbage") (by decide),
    by decide⟩

/-- Claim C6 (confirmed): role comparison in the role gate is
case-insensitive — for every attached identity claim and non-empty
allow-list, the gate passes (invokes the downstream handler) exactly when
the lower-cased claim role equals the lower-case of some allow-list
entry. -/
theorem claim_C6_authorize_case_insensitive (allowed : List String)
    (u : JwtClaims) (hne : allowed ≠ []) :
    ((authorize allowed (some u)).nextCalls = 1
      ↔ ∃ r ∈ allowed, jsToLower r = jsToLower u.role) := by
  rw [authorize_some]
  by_cases hB : allowed.any (fun role => jsToLower role == jsToLower u.role) = true
  · rw [if_pos hB]
    exact ⟨fun _ => (authorize_any_iff allowed u).mp hB, fun _ => rfl⟩
  · rw [if_neg hB]
    constructor
    · intro h0
      simp at h0
    · intro hex
      exact absurd ((authorize_any_iff allowed u).mpr hex) hB

/-- Witness for C6: a claim with role `Admin` against the allow-list
`["admin"]` — the characterization applies and the gate passes. -/
theorem claim_C6_witness :
    (["admin"] : List String) ≠ [] ∧
    ((authorize ["admin"] (some ⟨"u1", "a@x.com", "Admin", 0, 10⟩)).nextCalls = 1
      ↔ ∃ r ∈ (["admin"] : List String), jsToLower r = jsToLower "Admin") ∧
    (authorize ["admin"] (some ⟨"u1", "a@x.com", "Admin", 0, 10⟩)).nextCalls = 1 :=
  ⟨by decide,
    claim_C6_authorize_case_insensitive ["admin"] ⟨"u1", "a@x.com", "Admin", 0, 10⟩
      (by decide),
    by decide⟩

/-- Claim C7 (confirmed): for every request reaching the role gate with no
identity claim attached, the gate responds 401 with body
`{"success": false, "error": "Authentication required"}` and never invokes
the downstream handler, regardless of the configured allow-list. -/
theorem claim_C7_authorize_requires_identity (allowed : List String) :
    authorize allowed none
      = ⟨some 401, some ⟨false, "Authentication required"⟩, none, 0⟩ := rfl

/-- Claim C8 (confirmed): for every attached identity claim whose
case-normalized role is not a member of the allow-list, the role gate
responds 403 with body exactly
`{"success": false, "error": "Insufficient permissions"}` and does not
invoke the downstream handler. -/
theorem claim_C8_insufficient_role (allowed : List String) (u : JwtClaims)
    (h : ∀ r ∈ allowed, jsToLower r ≠ jsToLower u.role) :
    authorize allowed (some u)
      = ⟨some 403, some ⟨false, "Insufficient permissions"⟩, some u, 0⟩ := by
  have hB : ¬ (allowed.any (fun role => jsToLower role == jsToLower u.role) = true) := by
    intro hB1
    obtain ⟨r, hr, hbeq⟩ := (authorize_any_iff allowed u).mp hB1
    exact h r hr hbeq
  rw [authorize_some, if_neg hB]

/-- Witness for C8: a `viewer` claim against the allow-list
`["admin", "editor"]`. -/
theorem claim_C8_witness :
    (∀ r ∈ (["admin", "editor"] : List String),
      jsToLower r ≠ jsToLower (⟨"u4", "d@x.com", "viewer", 0, 10⟩ : JwtClaims).role) ∧
    authorize ["admin", "editor"] (some ⟨"u4", "d@x.com", "viewer", 0, 10⟩)
      = ⟨some 403, some ⟨false, "Insufficient permissions"⟩,
          some ⟨"u4", "d@x.com", "viewer", 0, 10⟩, 0⟩ :=
  ⟨by decide,
    claim_C8_insufficient_role ["admin", "editor"] ⟨"u4", "d@x.com", "viewer", 0, 10⟩
      (by decide)⟩

/-- Claim C9 (confirmed): the optional-authentication middleware never
rejects a request — for every input it sends no response and invokes the
next stage exactly once, and it attaches exactly the identity claims of a
present, valid Bearer credential. -/
theorem claim_C9_optionalAuth_total (secret : String) (now : Nat)
    (header : Option String) :
    (optionalAuth secret now header).nextCalls = 1 ∧
    (optionalAuth secret now header).status = none ∧
    (optionalAuth secret now header).body = none ∧
    ∀ d : JwtClaims,
      ((optionalAuth secret now header).user = some d
        ↔ ∃ t, extractBearer header = some t
            ∧ JwtService.verifyToken secret now t = Except.ok d) := by
  rcases hE : extractBearer header with _ | t
  · simp [optionalAuth, hE]
  · rcases hV : JwtService.verifyToken secret now t with e | d0
    · simp [optionalAuth, hE, hV]
    · simp [optionalAuth, hE, hV]

/-- Claim C10 (confirmed): `AuthService.login` succeeds (returning the
authenticated user's data) exactly when the submitted password is
string-equal to the stored password field or bcrypt comparison against it
succeeds — so a stored plaintext password is accepted at the login
interface by verbatim equality even when bcrypt comparison fails. -/
theorem claim_C10_login_plaintext_or_bcrypt
    (findByEmail : String → Option UserAttributes)
    (bcryptCompare : String → String → Bool)
    (credentials : LoginCredentials) (user : UserAttributes)
    (hfind : findByEmail credentials.email = some user) :
    (AuthService.login findByEmail bcryptCompare credentials
        = some ⟨⟨user.id, user.email, user.name, user.role⟩⟩
      ↔ (credentials.password = user.password
          ∨ bcryptCompare credentials.password user.password = true)) ∧
    (AuthService.login findByEmail bcryptCompare credentials = none
      ↔ ¬ (credentials.password = user.password
          ∨ bcryptCompare credentials.password user.password = true)) := by
  have heq : AuthService.login findByEmail bcryptCompare credentials =
      (if credentials.password == user.password
          || bcryptCompare credentials.password user.password
       then some ⟨⟨user.id, user.email, user.name, user.role⟩⟩ else none) := by
    simp [AuthService.login, hfind]
  rw [heq]
  by_cases hP : (credentials.password == user.password
      || bcryptCompare credentials.password user.password) = true
  · have hPP : credentials.password = user.password
        ∨ bcryptCompare credentials.password user.password = true := by
      simpa [Bool.or_eq_true, beq_iff_eq] using hP
    rw [if_pos hP]
    simp [hPP]
  · have hPP : ¬ (credentials.password = user.password
        ∨ bcryptCompare credentials.password user.password = true) := by
      intro hc
      apply hP
      rcases hc with hc | hc <;> simp [hc]
    rw [if_neg hP]
    simp [hPP]

/-- Witness for C10: a user record whose stored password is plaintext (and
for which bcrypt comparison returns false) is accepted by verbatim
equality. -/
theorem claim_C10_witness :
    (fun e => if e = "a@x.com"
        then some (⟨"u1", "a@x.com", "plain-secret-123", "Alice", "admin"⟩ : UserAttributes)
        else none) "a@x.com"
      = some ⟨"u1", "a@x.com", "plain-secret-123", "Alice", "admin"⟩ ∧
    ((AuthService.login
        (fun e => if e = "a@x.com"
          then some ⟨"u1", "a@x.com", "plain-secret-123", "Alice", "admin"⟩ else none)
        (fun _ _ => false) ⟨"a@x.com", "plain-secret-123"⟩
        = some ⟨⟨"u1", "a@x.com", "Alice", "admin"⟩⟩
      ↔ (("plain-secret-123" : String) = "plain-secret-123"
          ∨ (fun (_ : String) (_ : String) => false) "plain-secret-123" "plain-secret-123" = true)) ∧
    (AuthService.login
        (fun e => if e = "a@x.com"
          then some ⟨"u1", "a@x.com", "plain-secret-123", "Alice", "admin"⟩ else none)
        (fun _ _ => false) ⟨"a@x.com", "plain-secret-123"⟩
        = none
      ↔ ¬ (("plain-secret-123" : String) = "plain-secret-123"
          ∨ (fun (_ : String) (_ : String) => false) "plain-secret-123" "plain-secret-123" = true))) :=
  ⟨by decide,
    claim_C10_login_plaintext_or_bcrypt
      (fun e => if e = "a@x.com"
        then some ⟨"u1", "a@x.com", "plain-secret-123", "Alice", "admin"⟩ else none)
      (fun _ _ => false) ⟨"a@x.com", "plain-secret-123"⟩
      ⟨"u1", "a@x.com", "plain-secret-123", "Alice", "admin"⟩ (by decide)⟩
